import Mathlib

/-!
Verification of the uptime-monitor server core (server/server.js).

The repository contains two variants of the server in one file:
the day-bucketed variant (canonical) and an older rolling-list variant.
Both are embedded here.

Modelling conventions:
* JS `Number` values that are integer counts or millisecond durations are `Nat`.
* JS `toFixed(2)` (a string of the value rounded to 2 decimals) is modelled as
  the rational value rounded to the nearest multiple of 1/100 (`toFixed2`);
  the summed durations and counts involved are integers, exactly representable
  as doubles, so the rational model is exact up to the final rounding step.
* The string sentinel written by the code when a denominator is zero is
  modelled as `none` in an `Option ℚ` field.
* `Date.toDateString()` values are modelled as calendar-day indices obtained
  by dividing a millisecond timestamp by the length of a day (the code
  compares these strings only for equality, in a fixed reference time zone).
* JS `null` and an absent object field are both modelled as `none`.
* `io.emit(...)` calls are modelled by returning the ordered list of emitted
  events alongside the new state.
-/

/-- Number of milliseconds in one calendar day, used to model
`Date.toDateString()` day boundaries. -/
def msPerDay : Nat := 86400000

/-- Model of `new Date(t).toDateString()`: the calendar-day index of a
millisecond timestamp in the fixed reference time zone. The code only ever
compares these values for equality. -/
def toDateString (t : Nat) : Nat := t / msPerDay

/-- The probe interval: `const CHECK_INTERVAL = 60000` (server.js line 18). -/
def CHECK_INTERVAL : Nat := 60000

/-- The probe timeout passed to the HTTP client:
`axios.get(WEBSITE_URL, { timeout: 10000 })` (server.js line 59). -/
def AXIOS_TIMEOUT : Nat := 10000

/-- Model of JS `x.toFixed(2)`: the value rounded to two decimal places
(to the nearest multiple of 1/100). -/
def toFixed2 (q : ℚ) : ℚ := (round (q * 100) : ℚ) / 100

/-- One probe outcome as built by `checkWebsite` (server.js lines 61-76):
`timestamp` is the completion instant, `status` is the HTTP status
(`null`, i.e. `none`, when no response was received), `responseTime` the
measured duration in ms, `success` the outcome flag, and `error` the
`error.message` string, a field only present on the failure branch. -/
structure CheckResult where
  timestamp : Nat
  status : Option Nat
  responseTime : Nat
  success : Bool
  error : Option String
  deriving Repr, DecidableEq

/-- The summary object returned by `computeSummaryForResults`
(server.js lines 38-49). `uptimePercentage` and `averageResponseTime` are
`none` exactly when the code writes its string sentinel. -/
structure Summary where
  totalChecks : Nat
  successful : Nat
  failed : Nat
  uptimePercentage : Option ℚ
  averageResponseTime : Option ℚ
  deriving Repr, DecidableEq

/-- Embedding of `computeSummaryForResults(results)` (server.js lines 38-49):
count the checks, filter the successful ones, subtract for the failures,
and guard both divisions behind the zero checks the code performs
(`totalChecks ? ... : sentinel` and `successfulChecks.length > 0`). -/
def computeSummaryForResults (results : List CheckResult) : Summary :=
  let totalChecks := results.length
  let successfulChecks := results.filter (fun check => check.success)
  let failedChecks := totalChecks - successfulChecks.length
  let uptimePercentage : Option ℚ :=
    if totalChecks ≠ 0 then
      some (toFixed2 ((successfulChecks.length : ℚ) / (totalChecks : ℚ) * 100))
    else none
  let averageResponseTime : Option ℚ :=
    if successfulChecks.length > 0 then
      some (toFixed2
        (((successfulChecks.foldl (fun sum check => sum + check.responseTime) 0 : Nat) : ℚ) /
          (successfulChecks.length : ℚ)))
    else none
  { totalChecks := totalChecks, successful := successfulChecks.length,
    failed := failedChecks, uptimePercentage := uptimePercentage,
    averageResponseTime := averageResponseTime }

/-- Embedding of the rolling-list variant's `computeSummary()` (second copy of
server.js, lines 158-170). That function reads the module-global
`checkResults` array; the global is passed here as an explicit argument. -/
def computeSummary (checkResults : List CheckResult) : Summary :=
  let totalChecks := checkResults.length
  let successfulChecks := checkResults.filter (fun check => check.success)
  let failedChecks := totalChecks - successfulChecks.length
  let uptimePercentage : Option ℚ :=
    if totalChecks ≠ 0 then
      some (toFixed2 ((successfulChecks.length : ℚ) / (totalChecks : ℚ) * 100))
    else none
  let averageResponseTime : Option ℚ :=
    if successfulChecks.length > 0 then
      some (toFixed2
        (((successfulChecks.foldl (fun sum check => sum + check.responseTime) 0 : Nat) : ℚ) /
          (successfulChecks.length : ℚ)))
    else none
  { totalChecks := totalChecks, successful := successfulChecks.length,
    failed := failedChecks, uptimePercentage := uptimePercentage,
    averageResponseTime := averageResponseTime }

/-- The outcome of one `axios.get` call as observed by `checkWebsite`:
either a response with a status code, or a thrown error carrying an optional
response status (`error.response ? error.response.status : null`) and a
message. `duration` is the measured wall-clock time `Date.now() - start`. -/
inductive ProbeOutcome where
  | ok (status : Nat) (duration : Nat)
  | failed (status : Option Nat) (message : String) (duration : Nat)
  deriving Repr, DecidableEq

/-- The `result` object built by the try/catch in `checkWebsite`
(server.js lines 58-78): the success branch sets `success: true` and no
`error` field; the catch branch sets `success: false`,
`status: error.response ? error.response.status : null`, and
`error: error.message`. Both branches are total: every outcome yields a
record, no fault escapes to the caller. -/
def mkResult (completedAt : Nat) (o : ProbeOutcome) : CheckResult :=
  match o with
  | ProbeOutcome.ok st dur =>
      { timestamp := completedAt, status := some st, responseTime := dur,
        success := true, error := none }
  | ProbeOutcome.failed st msg dur =>
      { timestamp := completedAt, status := st, responseTime := dur,
        success := false, error := some msg }

/-- One day bucket: the `currentDayData` object shape (server.js lines 22-32):
`date` is the creation instant, `logs` the day's results in append order,
`summary` the stored summary object. -/
structure DayData where
  date : Nat
  logs : List CheckResult
  summary : Summary
  deriving Repr, DecidableEq

/-- The hard-coded summary literal of a fresh bucket (server.js lines 25-31
and 90-96): zero counts and the two string sentinels. -/
def initialSummary : Summary :=
  { totalChecks := 0, successful := 0, failed := 0,
    uptimePercentage := none, averageResponseTime := none }

/-- A freshly created day bucket (server.js lines 22-32 at start-up and
lines 87-97 on rollover): empty log, hard-coded zero summary, `date` set to
the current instant. -/
def freshDayData (now : Nat) : DayData :=
  { date := now, logs := [], summary := initialSummary }

/-- The module-level mutable state of the day-bucketed variant:
`currentDayKey`, `currentDayData` and `pastDays` (server.js lines 21-33). -/
structure ServerState where
  currentDayKey : Nat
  currentDayData : DayData
  pastDays : List DayData
  deriving Repr, DecidableEq

/-- The state at process start (server.js lines 21-33): a fresh bucket dated
to now, key set to the current day, empty history. -/
def initialState (startTime : Nat) : ServerState :=
  { currentDayKey := toDateString startTime,
    currentDayData := freshDayData startTime,
    pastDays := [] }

/-- One broadcast event (`io.emit` calls in server.js lines 98, 106-108). -/
inductive Event where
  | newCheck (result : CheckResult)
  | summaryUpdate (summary : Summary)
  | dailySummaryUpdate (days : List DayData)
  deriving Repr, DecidableEq

/-- The append-and-recompute step of `checkWebsite` (server.js lines
101-103): `currentDayData.logs.push(result)` followed by
`currentDayData.summary = computeSummaryForResults(currentDayData.logs)`. -/
def appendTo (d : DayData) (result : CheckResult) : DayData :=
  { d with logs := d.logs ++ [result],
           summary := computeSummaryForResults (d.logs ++ [result]) }

/-- Embedding of the recording half of `checkWebsite` (server.js lines
80-108), the part after the probe result is built: compare the current day
string against `currentDayKey`; on a change, unshift the finished bucket
onto `pastDays`, install a fresh bucket, and emit `dailySummaryUpdate`;
then push the result, recompute the summary, and emit `newCheck`,
`summaryUpdate` and `dailySummaryUpdate`. Returns the new state and the
ordered list of emitted events. -/
def recordResult (now : Nat) (result : CheckResult) (s : ServerState) :
    ServerState × List Event :=
  if toDateString now ≠ s.currentDayKey then
    let pastDays := s.currentDayData :: s.pastDays
    let fresh := freshDayData now
    let updated := appendTo fresh result
    ({ currentDayKey := toDateString now, currentDayData := updated,
       pastDays := pastDays },
      [Event.dailySummaryUpdate (fresh :: pastDays),
       Event.newCheck result,
       Event.summaryUpdate updated.summary,
       Event.dailySummaryUpdate (updated :: pastDays)])
  else
    let updated := appendTo s.currentDayData result
    ({ currentDayKey := s.currentDayKey, currentDayData := updated,
       pastDays := s.pastDays },
      [Event.newCheck result,
       Event.summaryUpdate updated.summary,
       Event.dailySummaryUpdate (updated :: s.pastDays)])

/-- Model of the value a `checkWebsite()` call resolves to for its caller:
the async function body (server.js lines 55-109) contains no `return`
statement, so the promise resolves to `undefined`, modelled as `none`. -/
def checkWebsiteReturn (now : Nat) (result : CheckResult) (s : ServerState) :
    Option Bool := none

/-- Whether a given `checkWebsite` call performs the rollover transition:
the day-change test of server.js line 82. -/
def rolloverOccurred (now : Nat) (s : ServerState) : Bool :=
  toDateString now != s.currentDayKey

/-- The `dailySummaryUpdate` payloads among a list of emitted events,
in emission order. -/
def dailyUpdates (events : List Event) : List (List DayData) :=
  events.filterMap (fun e =>
    match e with
    | Event.dailySummaryUpdate days => some days
    | _ => none)

/-- States reachable by the day-bucketed server: the start-up state, closed
under complete `checkWebsite` recording steps. -/
inductive Reachable : ServerState → Prop where
  | init (t : Nat) : Reachable (initialState t)
  | step (s : ServerState) (now : Nat) (result : CheckResult) :
      Reachable s → Reachable (recordResult now result s).1

/-- A day bucket whose stored summary is the summary of its own log. -/
def summaryConsistent (d : DayData) : Prop :=
  d.summary = computeSummaryForResults d.logs

/-- Model of the probe schedule produced by `setInterval(checkWebsite,
CHECK_INTERVAL)` together with the immediate initial call (server.js lines
125-126): invocation `k` starts at time `k * CHECK_INTERVAL`. JS timers fire
regardless of whether an earlier async invocation is still pending, so
starts are not delayed by in-flight probes. -/
def probeStart (k : Nat) : Nat := k * CHECK_INTERVAL

/-- Probe `k` is in flight at time `t` when `t` lies between its start and
its completion, `duration k` being the wall-clock time the HTTP request of
invocation `k` takes to settle. -/
def probeInFlightAt (duration : Nat → Nat) (k t : Nat) : Prop :=
  probeStart k ≤ t ∧ t < probeStart k + duration k

/-- Scenario records from the specification: success at 100 ms, timeout
failure, success at 300 ms. -/
def timeoutMsg : String := "timeout of 10000ms exceeded"

def scenarioRec1 : CheckResult :=
  { timestamp := 0, status := some 200, responseTime := 100,
    success := true, error := none }

def scenarioRec2 : CheckResult :=
  { timestamp := 1, status := none, responseTime := 10000,
    success := false, error := some timeoutMsg }

def scenarioRec3 : CheckResult :=
  { timestamp := 2, status := some 200, responseTime := 300,
    success := true, error := none }

def scenarioLog : List CheckResult := [scenarioRec1, scenarioRec2, scenarioRec3]

/-- Helper: the fold the code uses to sum response times equals the sum of
the mapped response times. -/
theorem foldl_responseTime (l : List CheckResult) (a : Nat) :
    l.foldl (fun sum check => sum + check.responseTime) a =
      a + (l.map (fun check => check.responseTime)).sum := by
  induction l generalizing a with
  | nil => simp
  | cons x xs ih => simp [ih, Nat.add_assoc]

/-- C1: for any log of N records with S successes, the summary has
totalChecks = N, successful = S, failed = N - S, and uptimePercentage equal
to S/N*100 rounded to 2 decimals when N > 0 and the sentinel when N = 0. -/
theorem computeSummaryForResults_correct (results : List CheckResult) :
    (computeSummaryForResults results).totalChecks = results.length ∧
    (computeSummaryForResults results).successful =
      (results.filter (fun check => check.success)).length ∧
    (computeSummaryForResults results).failed =
      results.length - (results.filter (fun check => check.success)).length ∧
    (results.length ≠ 0 →
      (computeSummaryForResults results).uptimePercentage =
        some (toFixed2
          (((results.filter (fun check => check.success)).length : ℚ) /
            (results.length : ℚ) * 100))) ∧
    (results.length = 0 →
      (computeSummaryForResults results).uptimePercentage = none) := by
  refine ⟨rfl, rfl, rfl, ?_, ?_⟩ <;> intro h <;>
    simp [computeSummaryForResults, h]

/-- Witness for C1 at the specification's three-record scenario. -/
theorem computeSummaryForResults_correct_witness :
    scenarioLog.length ≠ 0 ∧
    (computeSummaryForResults scenarioLog).totalChecks = 3 ∧
    (computeSummaryForResults scenarioLog).successful = 2 ∧
    (computeSummaryForResults scenarioLog).failed = 1 ∧
    (computeSummaryForResults scenarioLog).uptimePercentage = some (6667 / 100) := by
  have h := computeSummaryForResults_correct scenarioLog
  have hne : scenarioLog.length ≠ 0 := by
    simp [scenarioLog]
  refine ⟨hne, ?_, ?_, ?_, ?_⟩
  · rw [h.1]; rfl
  · rw [h.2.1]; rfl
  · rw [h.2.2.1]; rfl
  · rw [h.2.2.2.1 hne]
    norm_num [scenarioLog, scenarioRec1, scenarioRec2, scenarioRec3,
      toFixed2, round_eq]

/-- C4: averageResponseTime is the mean of responseTime over the successful
records only, rounded to 2 decimals, and the sentinel when there are no
successful records. -/
theorem computeSummaryForResults_average (results : List CheckResult) :
    ((results.filter (fun check => check.success)).length = 0 →
      (computeSummaryForResults results).averageResponseTime = none) ∧
    ((results.filter (fun check => check.success)).length ≠ 0 →
      (computeSummaryForResults results).averageResponseTime =
        some (toFixed2
          ((((results.filter (fun check => check.success)).map
              (fun check => check.responseTime)).sum : ℚ) /
            ((results.filter (fun check => check.success)).length : ℚ)))) := by
  constructor <;> intro h
  · simp [computeSummaryForResults, h]
  · have hpos : 0 < (results.filter (fun check => check.success)).length :=
      Nat.pos_of_ne_zero h
    simp [computeSummaryForResults, hpos, foldl_responseTime, Function.comp_def]

/-- Witness for C4 at the three-record scenario: mean of 100 and 300 is 200. -/
theorem computeSummaryForResults_average_witness :
    (scenarioLog.filter (fun check => check.success)).length ≠ 0 ∧
    (computeSummaryForResults scenarioLog).averageResponseTime = some 200 := by
  have hne : (scenarioLog.filter (fun check => check.success)).length ≠ 0 := by
    simp [scenarioLog, scenarioRec1, scenarioRec2, scenarioRec3]
  refine ⟨hne, ?_⟩
  rw [(computeSummaryForResults_average scenarioLog).2 hne]
  norm_num [scenarioLog, scenarioRec1, scenarioRec2, scenarioRec3,
    toFixed2, round_eq]

/-- C7: a produced result record has an error message exactly when it is a
failure, and on the failure branch the record carries success = false, the
remote status code when one was received (absent otherwise), and the
human-readable cause; both branches of mkResult are total, so no outcome
escapes as a fault. -/
theorem mkResult_error_fields (t : Nat) (o : ProbeOutcome)
    (st : Option Nat) (msg : String) (dur : Nat) :
    ((mkResult t o).error.isSome = !(mkResult t o).success) ∧
    (mkResult t (ProbeOutcome.failed st msg dur)).success = false ∧
    (mkResult t (ProbeOutcome.failed st msg dur)).status = st ∧
    (mkResult t (ProbeOutcome.failed st msg dur)).error = some msg := by
  cases o <;> simp [mkResult]

/-- C8: the summary computation is a pure function of the log; evaluating it
twice on the same unchanged log yields identical output. -/
theorem computeSummaryForResults_idempotent (log : List CheckResult) :
    (computeSummaryForResults log, computeSummaryForResults log).1 =
      (computeSummaryForResults log, computeSummaryForResults log).2 := rfl

/-- C10: the rolling-list variant's computeSummary, applied to the same list
of check results as the day-bucketed variant's computeSummaryForResults,
returns the same summary. -/
theorem computeSummary_eq_computeSummaryForResults (checkResults : List CheckResult) :
    computeSummary checkResults = computeSummaryForResults checkResults := rfl

/-- C2: when the calendar day differs from the active bucket's key —
however large the gap — a single rollover occurs: the active bucket moves
to the front of the history with its stored summary untouched, the key
becomes the current day, and the incoming result is appended to the fresh
bucket (so its log is exactly the one result); when the day is unchanged,
the history and key are untouched and the result is appended to the
existing log. -/
theorem checkWebsite_rollover_transition (s : ServerState) (now : Nat)
    (result : CheckResult) :
    (toDateString now ≠ s.currentDayKey →
      (recordResult now result s).1.pastDays = s.currentDayData :: s.pastDays ∧
      (recordResult now result s).1.currentDayKey = toDateString now ∧
      (recordResult now result s).1.currentDayData.logs = [result] ∧
      (recordResult now result s).1.currentDayData.date = now ∧
      (recordResult now result s).1.pastDays.length = s.pastDays.length + 1) ∧
    (toDateString now = s.currentDayKey →
      (recordResult now result s).1.pastDays = s.pastDays ∧
      (recordResult now result s).1.currentDayKey = s.currentDayKey ∧
      (recordResult now result s).1.currentDayData.logs =
        s.currentDayData.logs ++ [result]) := by
  constructor <;> intro h
  · simp [recordResult, h, appendTo, freshDayData]
  · simp [recordResult, h, appendTo]

/-- Witness for C2 at a three-day gap: starting from day 0, a record arriving
on day 3 triggers exactly one rollover, dated to the current day. -/
theorem checkWebsite_rollover_transition_witness :
    toDateString (3 * msPerDay) ≠ (initialState 0).currentDayKey ∧
    (recordResult (3 * msPerDay) scenarioRec1 (initialState 0)).1.pastDays =
      (initialState 0).currentDayData :: (initialState 0).pastDays ∧
    (recordResult (3 * msPerDay) scenarioRec1 (initialState 0)).1.currentDayKey =
      toDateString (3 * msPerDay) ∧
    (recordResult (3 * msPerDay) scenarioRec1 (initialState 0)).1.currentDayData.logs =
      [scenarioRec1] ∧
    (recordResult (3 * msPerDay) scenarioRec1 (initialState 0)).1.pastDays.length =
      (initialState 0).pastDays.length + 1 := by
  have hne : toDateString (3 * msPerDay) ≠ (initialState 0).currentDayKey := by
    decide
  have h :=
    (checkWebsite_rollover_transition (initialState 0) (3 * msPerDay) scenarioRec1).1 hne
  exact ⟨hne, h.1, h.2.1, h.2.2.1, h.2.2.2.2⟩

/-- C5: in every reachable state the active bucket's stored summary is the
summary of its log (the hard-coded summary of a fresh bucket agrees with
the summary of an empty log), and every archived bucket's stored summary is
the summary of its frozen log. -/
theorem reachable_summary_consistent (s : ServerState) (h : Reachable s) :
    summaryConsistent s.currentDayData ∧
    (∀ d ∈ s.pastDays, summaryConsistent d) ∧
    (∀ t, (freshDayData t).summary = computeSummaryForResults []) := by
  induction h with
  | init t =>
      refine ⟨?_, ?_, ?_⟩
      · show initialSummary = computeSummaryForResults []
        rfl
      · intro d hd
        simp [initialState] at hd
      · intro t2
        rfl
  | step s now result hs ih =>
      by_cases hd : toDateString now ≠ s.currentDayKey
      · refine ⟨?_, ?_, ih.2.2⟩
        · simp [recordResult, hd, summaryConsistent, appendTo]
        · intro d hmem
          simp only [recordResult, if_pos hd] at hmem
          rcases List.mem_cons.mp hmem with h1 | h2
          · exact h1 ▸ ih.1
          · exact ih.2.1 d h2
      · refine ⟨?_, ?_, ih.2.2⟩
        · simp [recordResult, hd, summaryConsistent, appendTo]
        · intro d hmem
          simp only [recordResult, if_neg hd] at hmem
          exact ih.2.1 d hmem

/-- Witness for C5 at the start-up state. -/
theorem reachable_summary_consistent_witness :
    (initialState 0).currentDayData.summary =
      computeSummaryForResults (initialState 0).currentDayData.logs :=
  (reachable_summary_consistent (initialState 0) (Reachable.init 0)).1

/-- C6 counterexample: at a day boundary a rollover occurs, yet the value
`checkWebsite` resolves to is not a rollover-occurred indication — the
function body has no return statement, so the caller receives `undefined`. -/
theorem checkWebsiteReturn_counterexample :
    rolloverOccurred msPerDay (initialState 0) = true ∧
    checkWebsiteReturn msPerDay scenarioRec1 (initialState 0) ≠ some true := by
  constructor
  · decide
  · simp [checkWebsiteReturn]

/-- C6 amended: `checkWebsite` returns no rollover indication at all — every
call resolves to `undefined` (`none`), whether or not a rollover occurred. -/
theorem checkWebsiteReturn_always_none (now : Nat) (result : CheckResult)
    (s : ServerState) : checkWebsiteReturn now result s = none := rfl

/-- C9: a rollover call emits `dailySummaryUpdate` twice — first with the
fresh bucket (empty log, hard-coded zero summary) at the head, before the
triggering result is appended, then with the result appended — while a call
without rollover emits it exactly once, with the updated bucket at the
head. -/
theorem recordResult_dailyUpdate_events (now : Nat) (result : CheckResult)
    (s : ServerState) :
    (toDateString now ≠ s.currentDayKey →
      dailyUpdates (recordResult now result s).2 =
        [freshDayData now :: s.currentDayData :: s.pastDays,
         appendTo (freshDayData now) result :: s.currentDayData :: s.pastDays] ∧
      (freshDayData now).logs = [] ∧
      (freshDayData now).summary = initialSummary ∧
      (appendTo (freshDayData now) result).logs = [result]) ∧
    (toDateString now = s.currentDayKey →
      dailyUpdates (recordResult now result s).2 =
        [appendTo s.currentDayData result :: s.pastDays]) := by
  constructor <;> intro h
  · refine ⟨?_, rfl, rfl, ?_⟩
    · simp [recordResult, h, dailyUpdates]
    · simp [appendTo, freshDayData]
  · simp [recordResult, h, dailyUpdates]

/-- Witness for C9: a day-boundary call broadcasts the day list twice, a
same-day call broadcasts it once. -/
theorem recordResult_dailyUpdate_events_witness :
    toDateString msPerDay ≠ (initialState 0).currentDayKey ∧
    (dailyUpdates (recordResult msPerDay scenarioRec1 (initialState 0)).2).length = 2 ∧
    toDateString 0 = (initialState 0).currentDayKey ∧
    (dailyUpdates (recordResult 0 scenarioRec1 (initialState 0)).2).length = 1 := by
  have hne : toDateString msPerDay ≠ (initialState 0).currentDayKey := by decide
  have heq : toDateString 0 = (initialState 0).currentDayKey := by decide
  have h1 :=
    (recordResult_dailyUpdate_events msPerDay scenarioRec1 (initialState 0)).1 hne
  have h2 :=
    (recordResult_dailyUpdate_events 0 scenarioRec1 (initialState 0)).2 heq
  refine ⟨hne, ?_, heq, ?_⟩
  · rw [h1.1]; rfl
  · rw [h2]; rfl

/-- C3 counterexample: under the `setInterval` schedule, a probe lasting
70000 ms (longer than the 60000 ms interval) is still in flight when the
next invocation starts, so two distinct probes are in flight at t = 60000. -/
theorem scheduler_overlap_counterexample :
    probeInFlightAt (fun _ => 70000) 0 60000 ∧
    probeInFlightAt (fun _ => 70000) 1 60000 ∧ (0 : Nat) ≠ 1 := by
  refine ⟨?_, ?_, by decide⟩ <;>
    · unfold probeInFlightAt probeStart CHECK_INTERVAL
      norm_num

/-- C3 amended: provided every probe settles within the 10000 ms axios
timeout — which is below the 60000 ms interval — no two distinct
invocations are ever in flight at the same instant. -/
theorem scheduler_no_overlap_of_timeout (duration : Nat → Nat)
    (hdur : ∀ k, duration k ≤ AXIOS_TIMEOUT) (t k1 k2 : Nat)
    (h1 : probeInFlightAt duration k1 t) (h2 : probeInFlightAt duration k2 t) :
    k1 = k2 := by
  have b1 := hdur k1
  have b2 := hdur k2
  unfold probeInFlightAt probeStart CHECK_INTERVAL at h1 h2
  unfold AXIOS_TIMEOUT at b1 b2
  omega

/-- Witness for C3's amended theorem at a bounded-duration schedule. -/
theorem scheduler_no_overlap_witness :
    probeInFlightAt (fun _ => 5000) 0 1000 ∧ (0 : Nat) = 0 := by
  have hf : probeInFlightAt (fun _ => 5000) 0 1000 := by
    unfold probeInFlightAt probeStart CHECK_INTERVAL
    norm_num
  exact ⟨hf, scheduler_no_overlap_of_timeout (fun _ => 5000)
    (fun k => by norm_num [AXIOS_TIMEOUT]) 1000 0 0 hf hf⟩
